import Mathlib

/-!
Verification development for the request-admission and credential-lifecycle
subsystem of the blog-platform backend.

Credential side (internal/infrastructure/auth, JWTService over the
golang-jwt/jwt v5 library): times are modelled as Int nanoseconds since the
Unix epoch, exactly as the Go time.Time / time.Duration carry them; Unix()
is floor division by 10^9, which is the Int division of Lean for a positive
divisor.  The HMAC-SHA256 signer of the library is modelled symbolically as
an ideal MAC: a signature is determined by (algorithm, key, signed payload)
and verification succeeds exactly when the recomputed triple matches, so
distinct keys yield distinct signatures (constructor injectivity stands in
for collision resistance).  The v5 parser behaviour is modelled from the
library: structural failure, keyfunc failure, signature failure and claim
validation are checked in that order, and every error is returned wrapped
with the sentinel text of the library followed by a colon (an expired
token surfaces as "token has invalid claims: token is expired").  NumericDate
fields serialize at second precision, so issuedAt/expiresAt/notBefore are
truncated to whole Unix seconds at issuance.

Admission side (internal/infrastructure/http/middleware/rate_limit.go): the
token-bucket primitive lives in the external golang.org/x/time/rate library
and is modelled from the words of the spec: refill to min(capacity,
tokens + elapsed * refillRatePerSecond), then consume one token when at
least one is available.  Real-valued float64 quantities are modelled as
exact rationals; time is rational seconds.  The registry map, staleness
replacement, sweep and response headers are translated from the middleware
source.
-/

deriving instance DecidableEq for Except

namespace Blog

/-- nanoseconds per second; Go times and durations are int64 nanoseconds. -/
def nsPerSec : Int := 1000000000

/-- Unix seconds of a time in nanoseconds since the epoch, as the Go
Time.Unix computes it (floor division; the Int division of Lean floors for a
positive divisor). -/
def unixSec (t : Int) : Int := t / nsPerSec

/-- one millisecond in nanoseconds (the sleep inside RefreshToken). -/
def oneMsNs : Int := 1000000

/-- token-error values of internal/domain/auth/errors.go. -/
inductive AuthErr where
  | ErrInvalidToken
  | ErrExpiredToken
  | ErrTokenGeneration
  | ErrTokenValidation
  | ErrInvalidSecretKey
  | ErrMissingToken
  | ErrInvalidUserID
  | ErrInvalidDuration
  | ErrEmptyToken
  | ErrTokenExpired
  | ErrInvalidEmail
  deriving DecidableEq

/-- signing algorithms a token header can name. -/
inductive JWTAlg where
  | HS256
  | HS384
  | HS512
  | AlgNone
  | RS256
  deriving DecidableEq

/-- whether the algorithm belongs to the HMAC family; the keyfunc installed
by ValidateToken accepts exactly the jwt.SigningMethodHMAC methods. -/
def JWTAlg.isHMAC : JWTAlg → Bool
  | .HS256 => true
  | .HS384 => true
  | .HS512 => true
  | .AlgNone => false
  | .RS256 => false

/-- the Claims structure serialized into a token: the custom user_id/email
fields plus the jwt.RegisteredClaims set by GenerateToken.  Timestamps are
whole Unix seconds, the precision NumericDate serializes at. -/
structure JWTClaims where
  userID : Int
  email : String
  issuedAt : Int
  expiresAt : Int
  notBefore : Int
  issuer : String
  subject : String
  audience : List String
  deriving DecidableEq

/-- symbolic HMAC signature over the signing string of a token, determined by the
algorithm, the key and the signed payload (ideal MAC). -/
structure MacSig where
  alg : JWTAlg
  key : String
  payload : JWTClaims
  deriving DecidableEq

/-- signing: produce the signature of the payload under the key. -/
def hmacSign (alg : JWTAlg) (key : String) (payload : JWTClaims) : MacSig :=
  ⟨alg, key, payload⟩

/-- a token string: either a string that is not a structurally valid JWT
(including the empty string), or a well-formed JWT carrying a header
algorithm, a claims payload and a signature. -/
inductive TokenString where
  | raw (s : String)
  | jwt (alg : JWTAlg) (claims : JWTClaims) (sig : MacSig)
  deriving DecidableEq

/-- emptiness test of the underlying string (a well-formed JWT string is
never empty since it has three nonempty base64 segments). -/
def TokenString.isEmptyStr : TokenString → Bool
  | .raw s => s == ""
  | .jwt _ _ _ => false

/-- parse errors of golang-jwt/jwt v5, in the order ParseWithClaims can
produce them; detail strings carry the wrapped inner message. -/
inductive ParseErr where
  | malformed (detail : String)
  | keyfuncFailed (detail : String)
  | signatureInvalid
  | invalidClaims (detail : String)
  deriving DecidableEq

/-- Error() text of a v5 parse error: the sentinel message of the wrapping
error followed by ": " and the inner detail, as the newError helper of v5 builds it. -/
def ParseErr.errMsg : ParseErr → String
  | .malformed d => "token is malformed: " ++ d
  | .keyfuncFailed d => "token is unverifiable: error while executing keyfunc: " ++ d
  | .signatureInvalid => "token signature is invalid: signature is invalid"
  | .invalidClaims d => "token has invalid claims: " ++ d

/-- claim-validation failures of the v5 default validator at time now
(nanoseconds): expiry requires now < exp, not-before requires nbf ≤ now;
issued-at is not checked by default.  Messages are joined with ", ". -/
def validatorErrs (now : Int) (cl : JWTClaims) : List String :=
  (if now < cl.expiresAt * nsPerSec then [] else ["token is expired"]) ++
    (if cl.notBefore * nsPerSec ≤ now then [] else ["token is not valid yet"])

/-- Model of jwt.ParseWithClaims under the keyfunc ValidateToken installs:
structural parse, then the keyfunc (which rejects any non-HMAC method with
auth.ErrInvalidToken, whose message is "invalid token"), then signature
verification against the key the keyfunc returned, then default claim
validation. -/
def parseWithClaims (key : String) (tok : TokenString) (now : Int) :
    Except ParseErr JWTClaims :=
  match tok with
  | .raw s => .error (.malformed s)
  | .jwt alg cl sig =>
    if alg.isHMAC = false then .error (.keyfuncFailed "invalid token")
    else if sig ≠ hmacSign alg key cl then .error .signatureInvalid
    else
      match validatorErrs now cl with
      | [] => .ok cl
      | es => .error (.invalidClaims (String.intercalate ", " es))

/-- the JWTService of internal/infrastructure/auth: holds the secret key
([]byte of the constructor argument; the empty string models a key of
length zero). -/
structure JWTService where
  secretKey : String
  deriving DecidableEq

/-- auth.TokenClaims returned by ValidateToken (Unix-second timestamps). -/
structure TokenClaims where
  UserID : Int
  Email : String
  IssuedAt : Int
  ExpiresAt : Int
  deriving DecidableEq

/-- the claims GenerateToken builds at time now for a duration: the custom
fields, second-truncated issuedAt/expiresAt/notBefore, the fixed issuer and
audience, and subject = email. -/
def genClaims (userID : Int) (email : String) (duration now : Int) : JWTClaims :=
  { userID := userID
    email := email
    issuedAt := unixSec now
    expiresAt := unixSec (now + duration)
    notBefore := unixSec now
    issuer := "blog-platform"
    subject := email
    audience := ["blog-platform-api"] }

/-- GenerateToken: input validation in source order, then a token carrying
genClaims signed with HS256 under the service key. -/
def JWTService.GenerateToken (j : JWTService) (userID : Int) (email : String)
    (duration : Int) (now : Int) : Except AuthErr TokenString :=
  if userID ≤ 0 then .error .ErrInvalidUserID
  else if email = "" then .error .ErrInvalidEmail
  else if duration ≤ 0 then .error .ErrInvalidDuration
  else if j.secretKey = "" then .error .ErrInvalidSecretKey
  else
    .ok (.jwt .HS256 (genClaims userID email duration now)
      (hmacSign .HS256 j.secretKey (genClaims userID email duration now)))

/-- ValidateToken: empty-token and empty-key guards, then ParseWithClaims;
a parse failure is mapped to ErrTokenExpired only when the error text equals
"token is expired" or "Token is expired", and to ErrInvalidToken otherwise;
success repackages the verified claims with Unix()-second timestamps. -/
def JWTService.ValidateToken (j : JWTService) (tok : TokenString) (now : Int) :
    Except AuthErr TokenClaims :=
  if tok.isEmptyStr then .error .ErrEmptyToken
  else if j.secretKey = "" then .error .ErrInvalidSecretKey
  else
    match parseWithClaims j.secretKey tok now with
    | .error e =>
      if e.errMsg = "token is expired" ∨ e.errMsg = "Token is expired" then
        .error .ErrTokenExpired
      else .error .ErrInvalidToken
    | .ok cl =>
      .ok { UserID := cl.userID, Email := cl.email,
            IssuedAt := cl.issuedAt, ExpiresAt := cl.expiresAt }

/-- RefreshToken: validate, propagate any failure verbatim, otherwise sleep
one millisecond and issue a fresh 24-hour token for the same subject. -/
def JWTService.RefreshToken (j : JWTService) (tok : TokenString) (now : Int) :
    Except AuthErr TokenString :=
  match j.ValidateToken tok now with
  | .error e => .error e
  | .ok claims =>
    j.GenerateToken claims.UserID claims.Email (24 * 3600 * nsPerSec) (now + oneMsNs)

/-- a token bucket: the current token count and the time of the last refill
(rational seconds; the float64/real-valued quantities are modelled exactly). -/
structure Bucket where
  tokens : ℚ
  lastRefill : ℚ
  deriving DecidableEq

/-- tokens available at time now: refill by elapsed time times the rate,
capped at the capacity. -/
def refill (capacity : Int) (r : ℚ) (b : Bucket) (now : ℚ) : ℚ :=
  min (capacity : ℚ) (b.tokens + (now - b.lastRefill) * r)

/-- tryAcquire: refill, then consume one token when at least one is
available; returns the admission decision and the updated bucket. -/
def tryAcquire (capacity : Int) (r : ℚ) (b : Bucket) (now : ℚ) : Bool × Bucket :=
  if 1 ≤ refill capacity r b now then
    (true, ⟨refill capacity r b now - 1, now⟩)
  else (false, ⟨refill capacity r b now, now⟩)

/-- a freshly created limiter (rate.NewLimiter) starts with a full bucket. -/
def freshBucket (capacity : Int) (now : ℚ) : Bucket :=
  ⟨(capacity : ℚ), now⟩

/-- run n consecutive tryAcquire calls at one instant, collecting the
admission decisions. -/
def acquireRun (capacity : Int) (r : ℚ) : Nat → Bucket → ℚ → List Bool
  | 0, _, _ => []
  | n + 1, b, now =>
    (tryAcquire capacity r b now).1 ::
      acquireRun capacity r n (tryAcquire capacity r b now).2 now

/-- RateLimiterConfig of the middleware (the KeyGenerator is modelled by
passing the resolved client key to each request; SkipSuccessful is unused
by the source). -/
structure RateLimiterConfig where
  RequestsPerSecond : ℚ
  BurstSize : Int
  deriving DecidableEq

/-- DefaultRateLimiterConfig: 10 requests per second, burst 20. -/
def DefaultRateLimiterConfig : RateLimiterConfig := ⟨10, 20⟩

/-- AuthRateLimiterConfig: 2 requests per second, burst 5. -/
def AuthRateLimiterConfig : RateLimiterConfig := ⟨2, 5⟩

/-- rateLimiterEntry: a limiter plus the lastSeen timestamp. -/
structure RateLimiterEntry where
  limiter : Bucket
  lastSeen : ℚ
  deriving DecidableEq

/-- the limiterMap a RateLimiterWithConfig closure owns, keyed by client
IP; modelled as a lookup function into Option. -/
abbrev Registry := String → Option RateLimiterEntry

/-- the map starts empty. -/
def emptyRegistry : Registry := fun _ => none

/-- the rate-limit response headers a request ends up with; numeric values
are modelled as numbers (the source emits their decimal string forms). -/
structure RateLimitHeaders where
  limit : ℚ
  remaining : Int
  reset : Option Int
  deriving DecidableEq

/-- outcome of one request through the middleware: the admission decision
(false means the 429 short-circuit), the headers set on the response, and
the registry afterwards. -/
structure StepResult where
  allowed : Bool
  headers : RateLimitHeaders
  registry : Registry

/-- entry resolution of the handler: the existing entry of the client, replaced
by a fresh full limiter when absent or idle for over an hour; lastSeen is
set to now.  All time.Now() calls inside one request are modelled as the
single instant now. -/
def lookupEntry (config : RateLimiterConfig) (reg : Registry)
    (clientIP : String) (now : ℚ) : RateLimiterEntry :=
  match reg clientIP with
  | none => ⟨freshBucket config.BurstSize now, now⟩
  | some e =>
    if now - e.lastSeen > 3600 then ⟨freshBucket config.BurstSize now, now⟩
    else ⟨e.limiter, now⟩

/-- one request through the handler RateLimiterWithConfig returns: obtain
the entry via lookupEntry, store it with lastSeen = now, then consume from
the bucket; a denial sets Remaining 0 and Reset = Unix(now + 1s), an
admission sets Remaining = BurstSize - 1. -/
def rateLimitStep (config : RateLimiterConfig) (reg : Registry)
    (clientIP : String) (now : ℚ) : StepResult :=
  let entry : RateLimiterEntry := lookupEntry config reg clientIP now
  let acq := tryAcquire config.BurstSize config.RequestsPerSecond entry.limiter now
  let reg' : Registry := fun k => if k = clientIP then some ⟨acq.2, now⟩ else reg k
  if acq.1 then
    { allowed := true
      headers :=
        { limit := config.RequestsPerSecond
          remaining := config.BurstSize - 1
          reset := none }
      registry := reg' }
  else
    { allowed := false
      headers :=
        { limit := config.RequestsPerSecond
          remaining := 0
          reset := some ⌊now + 1⌋ }
      registry := reg' }

/-- cleanupExpiredLimiters: one sweep at time now deletes every entry whose
lastSeen lies strictly before now minus one hour and keeps the rest. -/
def cleanupExpiredLimiters (reg : Registry) (now : ℚ) : Registry :=
  fun k =>
    match reg k with
    | some e => if e.lastSeen < now - 3600 then none else some e
    | none => none

/-- a sequence of requests (client key, time) through one limiter. -/
def runRequests (config : RateLimiterConfig) (reg : Registry) :
    List (String × ℚ) → Registry
  | [] => reg
  | p :: ps => runRequests config (rateLimitStep config reg p.1 p.2).registry ps

/-- n same-key requests at one instant, collecting admission decisions. -/
def stepRun (config : RateLimiterConfig) (reg : Registry) (clientIP : String)
    (now : ℚ) : Nat → List Bool
  | 0 => []
  | n + 1 =>
    (rateLimitStep config reg clientIP now).allowed ::
      stepRun config (rateLimitStep config reg clientIP now).registry clientIP now n

/-- the two independently configured middlewares of the route setup: each
RateLimiterWithConfig call allocates its own limiterMap, so the system
state is a pair of registries. -/
structure TwoPolicyState where
  defaultReg : Registry
  authReg : Registry

/-- a request through the default-policy middleware touches only the
default registry. -/
def defaultRequest (cfgD : RateLimiterConfig) (s : TwoPolicyState)
    (clientIP : String) (now : ℚ) : StepResult × TwoPolicyState :=
  let r := rateLimitStep cfgD s.defaultReg clientIP now
  (r, ⟨r.registry, s.authReg⟩)

/-- a request through the auth-policy middleware touches only the auth
registry. -/
def authRequest (cfgA : RateLimiterConfig) (s : TwoPolicyState)
    (clientIP : String) (now : ℚ) : StepResult × TwoPolicyState :=
  let r := rateLimitStep cfgA s.authReg clientIP now
  (r, ⟨s.defaultReg, r.registry⟩)

/-! Theorems. -/

/-- inversion of a successful GenerateToken: the key is nonempty and the
token is the HS256-signed genClaims payload. -/
lemma generateToken_ok {j : JWTService} {uid : Int} {email : String}
    {d now : Int} {tok : TokenString}
    (h : j.GenerateToken uid email d now = .ok tok) :
    j.secretKey ≠ "" ∧
      tok = .jwt .HS256 (genClaims uid email d now)
        (hmacSign .HS256 j.secretKey (genClaims uid email d now)) := by
  unfold JWTService.GenerateToken at h
  split_ifs at h with h1 h2 h3 h4
  all_goals simp only [reduceCtorEq, Except.ok.injEq] at h
  exact ⟨h4, h.symm⟩

/-- the service of the concrete scenarios, with secret key "k". -/
def svcK : JWTService := ⟨"k"⟩

/-- the token issue(1, "a@b.com", 1ms) produces at time 0. -/
def msToken : TokenString :=
  .jwt .HS256 (genClaims 1 "a@b.com" oneMsNs 0)
    (hmacSign .HS256 "k" (genClaims 1 "a@b.com" oneMsNs 0))

/-- C1: a token produced by GenerateToken under a non-empty key K1 fails
ValidateToken under a service configured with a different non-empty key K2,
at every validation time, with error kind ErrInvalidToken; the operation is
a total function, so it never returns claims and never panics. -/
theorem C1_cross_key_rejection (k1 k2 email : String) (uid d now nowV : Int)
    (tok : TokenString) (hne : k1 ≠ k2) (hk2 : k2 ≠ "")
    (hgen : (JWTService.mk k1).GenerateToken uid email d now = .ok tok) :
    (JWTService.mk k2).ValidateToken tok nowV = .error .ErrInvalidToken := by
  obtain ⟨-, rfl⟩ := generateToken_ok hgen
  simp [JWTService.ValidateToken, TokenString.isEmptyStr, parseWithClaims,
    JWTAlg.isHMAC, hmacSign, ParseErr.errMsg, hk2, hne]

/-- the token of the C1 witness: issue(1, "test@example.com", 24h) at time 0
under key "secret-key-1". -/
def w1Token : TokenString :=
  .jwt .HS256 (genClaims 1 "test@example.com" (24 * 3600 * nsPerSec) 0)
    (hmacSign .HS256 "secret-key-1"
      (genClaims 1 "test@example.com" (24 * 3600 * nsPerSec) 0))

/-- witness for C1 at the cross-validation scenario taken from the test
suite of the repository. -/
theorem C1_cross_key_rejection_witness :
    (JWTService.mk "secret-key-2").ValidateToken w1Token 0 =
      .error .ErrInvalidToken :=
  C1_cross_key_rejection "secret-key-1" "secret-key-2" "test@example.com" 1
    (24 * 3600 * nsPerSec) 0 0 w1Token (by decide) (by decide) (by decide)

/-- C3 counterexample: for the sub-second duration 1ms the round trip does
not succeed at all: NumericDate serializes at whole-second precision, so
the 1ms token is already expired at its own issuance instant and the
immediate validation returns an error instead of claims with
expiresAt - issuedAt = 1ms. -/
theorem C3_counterexample :
    svcK.GenerateToken 1 "a@b.com" oneMsNs 0 = .ok msToken ∧
    svcK.ValidateToken msToken 0 = .error .ErrInvalidToken := by
  decide

/-- C3 amended: for every duration that is a whole positive number s of
seconds, validating immediately after issuing succeeds and returns claims
with the same UserID and Email, issuedAt ≤ now ≤ expiresAt (timestamps in
Unix seconds, now in nanoseconds), and expiresAt - issuedAt = s seconds
(86400 for the 24h scenario). -/
theorem C3_amended_round_trip (key email : String) (uid s now : Int)
    (hk : key ≠ "") (hu : 0 < uid) (he : email ≠ "") (hs : 1 ≤ s) :
    ((JWTService.mk key).GenerateToken uid email (s * nsPerSec) now).bind
        (fun t => (JWTService.mk key).ValidateToken t now) =
      .ok ⟨uid, email, unixSec now, unixSec now + s⟩ ∧
    unixSec now * nsPerSec ≤ now ∧
    now < (unixSec now + s) * nsPerSec ∧
    (unixSec now + s) - unixSec now = s := by
  have hnu : ¬ uid ≤ 0 := by omega
  have hd : ¬ s * nsPerSec ≤ 0 := by unfold nsPerSec; omega
  have hexp : unixSec (now + s * nsPerSec) = unixSec now + s := by
    unfold unixSec nsPerSec; omega
  have h1 : unixSec now * nsPerSec ≤ now := by
    unfold unixSec nsPerSec; omega
  have h2 : now < (unixSec now + s) * nsPerSec := by
    unfold unixSec nsPerSec; omega
  refine ⟨?_, h1, h2, by omega⟩
  unfold JWTService.GenerateToken
  rw [if_neg hnu, if_neg he, if_neg hd, if_neg hk]
  show ((JWTService.mk key).ValidateToken _ now) = _
  unfold JWTService.ValidateToken
  simp only [TokenString.isEmptyStr, Bool.false_eq_true, if_false]
  rw [if_neg hk]
  unfold parseWithClaims
  simp only [JWTAlg.isHMAC, Bool.true_eq_false, if_false, ne_eq,
    not_true_eq_false, if_neg, ite_not, if_true]
  unfold validatorErrs genClaims
  simp only [hexp]
  rw [if_pos h2, if_pos h1]
  rfl

/-- witness for the amended C3 at the concrete 24h scenario of the spec. -/
theorem C3_amended_round_trip_witness :
    ((JWTService.mk "k").GenerateToken 42 "a@b.com" (86400 * nsPerSec) 0).bind
        (fun t => (JWTService.mk "k").ValidateToken t 0) =
      .ok ⟨42, "a@b.com", unixSec 0, unixSec 0 + 86400⟩ ∧
    unixSec 0 * nsPerSec ≤ 0 ∧
    (0 : Int) < (unixSec 0 + 86400) * nsPerSec ∧
    (unixSec 0 + 86400) - unixSec 0 = 86400 :=
  C3_amended_round_trip "k" "a@b.com" 42 86400 0 (by decide) (by decide)
    (by decide) (by decide)

/-- C4 (evidence of the code bug): the 1ms token of svcK is correctly
signed and past expiry 5ms after issuance, the v5 parser reports exactly
the expiry failure, its error text is the wrapped string "token has invalid
claims: token is expired", and ValidateToken therefore answers
ErrInvalidToken, not the ErrTokenExpired the claim (and the dead branch of
the source) promises. -/
theorem C4_expired_token_misclassified :
    svcK.GenerateToken 1 "a@b.com" oneMsNs 0 = .ok msToken ∧
    parseWithClaims "k" msToken (5 * oneMsNs) =
      .error (.invalidClaims "token is expired") ∧
    (ParseErr.invalidClaims "token is expired").errMsg =
      "token has invalid claims: token is expired" ∧
    svcK.ValidateToken msToken (5 * oneMsNs) = .error .ErrInvalidToken ∧
    AuthErr.ErrInvalidToken ≠ AuthErr.ErrTokenExpired := by
  decide

/-- C5 (evidence of the inherited code bug): RefreshToken propagates the
validation error verbatim, so refreshing the expired token yields the same
ErrInvalidToken that validation produced, where the claim expects
ErrTokenExpired for an already-expired token. -/
theorem C5_refresh_expired_misclassified :
    svcK.RefreshToken msToken (5 * oneMsNs) = .error .ErrInvalidToken ∧
    svcK.ValidateToken msToken (5 * oneMsNs) = .error .ErrInvalidToken := by
  decide

/-- C6: GenerateToken fails with ErrInvalidUserID when the subject id is
nonpositive, ErrInvalidEmail when (the id being valid) the label is empty,
ErrInvalidDuration when (id and label valid) the duration is nonpositive,
ErrInvalidSecretKey when (the other three valid) the signing key is empty,
and succeeds with the signed token when all four constraints hold. -/
theorem C6_generate_error_kinds (key email : String) (uid d now : Int) :
    (uid ≤ 0 →
      (JWTService.mk key).GenerateToken uid email d now =
        .error .ErrInvalidUserID) ∧
    (0 < uid → email = "" →
      (JWTService.mk key).GenerateToken uid email d now =
        .error .ErrInvalidEmail) ∧
    (0 < uid → email ≠ "" → d ≤ 0 →
      (JWTService.mk key).GenerateToken uid email d now =
        .error .ErrInvalidDuration) ∧
    (0 < uid → email ≠ "" → 0 < d → key = "" →
      (JWTService.mk key).GenerateToken uid email d now =
        .error .ErrInvalidSecretKey) ∧
    (0 < uid → email ≠ "" → 0 < d → key ≠ "" →
      (JWTService.mk key).GenerateToken uid email d now =
        .ok (.jwt .HS256 (genClaims uid email d now)
          (hmacSign .HS256 key (genClaims uid email d now)))) := by
  refine ⟨fun h => ?_, fun h1 h2 => ?_, fun h1 h2 h3 => ?_,
    fun h1 h2 h3 h4 => ?_, fun h1 h2 h3 h4 => ?_⟩ <;>
    unfold JWTService.GenerateToken
  · rw [if_pos h]
  · rw [if_neg (by omega), if_pos h2]
  · rw [if_neg (by omega), if_neg h2, if_pos h3]
  · rw [if_neg (by omega), if_neg h2, if_neg (by omega), if_pos h4]
  · rw [if_neg (by omega), if_neg h2, if_neg (by omega), if_neg h4]

/-- witness for C6 at the invalid-user-id row of the test table of the
repository. -/
theorem C6_generate_error_kinds_witness :
    (JWTService.mk "test-secret-key-for-jwt").GenerateToken 0
        "test@example.com" (24 * 3600 * nsPerSec) 0 =
      .error .ErrInvalidUserID :=
  (C6_generate_error_kinds "test-secret-key-for-jwt" "test@example.com" 0
    (24 * 3600 * nsPerSec) 0).1 (by decide)

/-- a bucket holding an integer count n ≤ C admits n more same-instant
checks and then denies. -/
lemma acquireRun_burst (capacity : Int) (r t : ℚ) (n : Nat)
    (hn : (n : ℚ) ≤ (capacity : ℚ)) :
    acquireRun capacity r (n + 1) ⟨(n : ℚ), t⟩ t =
      List.replicate n true ++ [false] := by
  induction n with
  | zero =>
    simp only [Nat.cast_zero] at hn ⊢
    have ht : tryAcquire capacity r ⟨(0 : ℚ), t⟩ t = (false, ⟨0, t⟩) := by
      simp [tryAcquire, refill, min_eq_right hn]
    simp [acquireRun, ht]
  | succ m ih =>
    have hm : ((m : ℕ) : ℚ) ≤ (capacity : ℚ) := by
      refine le_trans ?_ hn
      push_cast
      linarith
    have hle1 : (1 : ℚ) ≤ ((m + 1 : ℕ) : ℚ) := by
      push_cast
      linarith [Nat.cast_nonneg (α := ℚ) m]
    have hmin : min (capacity : ℚ) ((m + 1 : ℕ) : ℚ) = ((m + 1 : ℕ) : ℚ) :=
      min_eq_right hn
    have hsub : ((m + 1 : ℕ) : ℚ) - 1 = ((m : ℕ) : ℚ) := by
      push_cast
      ring
    have ht : tryAcquire capacity r ⟨((m + 1 : ℕ) : ℚ), t⟩ t =
        (true, ⟨((m : ℕ) : ℚ), t⟩) := by
      unfold tryAcquire refill
      rw [sub_self, zero_mul, add_zero, hmin, if_pos hle1, hsub]
    rw [acquireRun, ht]
    simp [ih hm, List.replicate_succ]

/-- the admission decision of one middleware request is the tryAcquire
decision on the looked-up entry. -/
lemma rateLimitStep_allowed (config : RateLimiterConfig) (reg : Registry)
    (ip : String) (now : ℚ) :
    (rateLimitStep config reg ip now).allowed =
      (tryAcquire config.BurstSize config.RequestsPerSecond
        (lookupEntry config reg ip now).limiter now).1 := by
  by_cases h : (tryAcquire config.BurstSize config.RequestsPerSecond
      (lookupEntry config reg ip now).limiter now).1 <;>
    simp [rateLimitStep, h]

/-- the registry after one middleware request: the entry of the client is the
consumed bucket with lastSeen = now, every other entry is untouched. -/
lemma rateLimitStep_registry (config : RateLimiterConfig) (reg : Registry)
    (ip : String) (now : ℚ) :
    (rateLimitStep config reg ip now).registry = fun k =>
      if k = ip then
        some ⟨(tryAcquire config.BurstSize config.RequestsPerSecond
          (lookupEntry config reg ip now).limiter now).2, now⟩
      else reg k := by
  by_cases h : (tryAcquire config.BurstSize config.RequestsPerSecond
      (lookupEntry config reg ip now).limiter now).1 <;>
    simp [rateLimitStep, h]

/-- the headers of one middleware request, split on the decision. -/
lemma rateLimitStep_headers (config : RateLimiterConfig) (reg : Registry)
    (ip : String) (now : ℚ) :
    (rateLimitStep config reg ip now).headers =
      if (rateLimitStep config reg ip now).allowed then
        ⟨config.RequestsPerSecond, config.BurstSize - 1, none⟩
      else ⟨config.RequestsPerSecond, 0, some ⌊now + 1⌋⟩ := by
  by_cases h : (tryAcquire config.BurstSize config.RequestsPerSecond
      (lookupEntry config reg ip now).limiter now).1 <;>
    simp [rateLimitStep, h]

/-- entry resolution reads only the registry slot of the requesting client. -/
lemma lookupEntry_congr (config : RateLimiterConfig) {reg1 reg2 : Registry}
    (ip : String) (now : ℚ) (h : reg1 ip = reg2 ip) :
    lookupEntry config reg1 ip now = lookupEntry config reg2 ip now := by
  unfold lookupEntry
  rw [h]

/-- the admission decision depends only on the registry slot of the client. -/
lemma rateLimitStep_allowed_congr (config : RateLimiterConfig)
    {reg1 reg2 : Registry} (ip : String) (now : ℚ) (h : reg1 ip = reg2 ip) :
    (rateLimitStep config reg1 ip now).allowed =
      (rateLimitStep config reg2 ip now).allowed := by
  rw [rateLimitStep_allowed, rateLimitStep_allowed,
    lookupEntry_congr config ip now h]

/-- a run of requests for other keys never touches the slot of this key. -/
lemma runRequests_frame (config : RateLimiterConfig) (ipB : String) :
    ∀ (reqs : List (String × ℚ)) (reg : Registry),
      (∀ p ∈ reqs, p.1 ≠ ipB) → runRequests config reg reqs ipB = reg ipB := by
  intro reqs
  induction reqs with
  | nil => intro reg _; rfl
  | cons p ps ih =>
    intro reg h
    have hne : ipB ≠ p.1 := fun hh => h p (List.mem_cons_self p ps) hh.symm
    rw [runRequests, ih _ fun q hq => h q (List.mem_cons_of_mem p hq)]
    rw [rateLimitStep_registry]
    simp [hne]

/-- requests for a key whose entry is the just-stored bucket behave as the
bare bucket sequence. -/
lemma stepRun_of_entry (config : RateLimiterConfig) (ip : String) (now : ℚ) :
    ∀ (n : Nat) (reg : Registry) (b : Bucket), reg ip = some ⟨b, now⟩ →
      stepRun config reg ip now n =
        acquireRun config.BurstSize config.RequestsPerSecond n b now := by
  intro n
  induction n with
  | zero => intro reg b _; rfl
  | succ m ih =>
    intro reg b h
    have hentry : lookupEntry config reg ip now = ⟨b, now⟩ := by
      unfold lookupEntry
      rw [h]
      simp
    rw [stepRun, acquireRun, rateLimitStep_allowed, hentry]
    congr 1
    apply ih
    rw [rateLimitStep_registry, hentry]
    simp

/-- the first request for an unknown key creates a fresh full bucket, and
the run continues as the bare bucket sequence from it. -/
lemma stepRun_fresh (config : RateLimiterConfig) (reg : Registry)
    (ip : String) (now : ℚ) (n : Nat) (h : reg ip = none) :
    stepRun config reg ip now (n + 1) =
      acquireRun config.BurstSize config.RequestsPerSecond (n + 1)
        (freshBucket config.BurstSize now) now := by
  have hentry : lookupEntry config reg ip now =
      ⟨freshBucket config.BurstSize now, now⟩ := by
    unfold lookupEntry
    rw [h]
  rw [stepRun, acquireRun, rateLimitStep_allowed, hentry]
  congr 1
  apply stepRun_of_entry
  rw [rateLimitStep_registry, hentry]
  simp

/-- an unknown key gets the full burst: BurstSize admissions at one
instant, then a denial. -/
lemma stepRun_burst (config : RateLimiterConfig) (reg : Registry)
    (ip : String) (now : ℚ) (hC : 1 ≤ config.BurstSize)
    (h : reg ip = none) :
    stepRun config reg ip now (config.BurstSize.toNat + 1) =
      List.replicate config.BurstSize.toNat true ++ [false] := by
  have h0 : (0 : ℤ) ≤ config.BurstSize := by omega
  have hcast : ((config.BurstSize.toNat : ℕ) : ℚ) =
      ((config.BurstSize : ℤ) : ℚ) := by
    exact_mod_cast congrArg (fun z : ℤ => (z : ℚ)) (Int.toNat_of_nonneg h0)
  have hb : freshBucket config.BurstSize now =
      ⟨((config.BurstSize.toNat : ℕ) : ℚ), now⟩ := by
    unfold freshBucket
    rw [hcast]
  rw [stepRun_fresh config reg ip now _ h, hb]
  exact acquireRun_burst config.BurstSize config.RequestsPerSecond now
    config.BurstSize.toNat (le_of_eq hcast)

/-- C2: the bucket algorithm and burst admission: a fresh bucket holds
capacity tokens; a check admits exactly when the refilled count
min(capacity, tokens + elapsed * rate) reaches 1, in which case one token
is consumed, and otherwise denies consuming nothing; and the first
BurstSize same-instant requests of an unknown key are admitted while the
next one is denied. -/
theorem C2_token_bucket_admission (config : RateLimiterConfig)
    (reg : Registry) (ip : String) (b : Bucket) (now : ℚ)
    (hC : 1 ≤ config.BurstSize) (hr : 0 < config.RequestsPerSecond)
    (hnew : reg ip = none) :
    (freshBucket config.BurstSize now).tokens = (config.BurstSize : ℚ) ∧
    ((tryAcquire config.BurstSize config.RequestsPerSecond b now).1 = true ↔
      1 ≤ refill config.BurstSize config.RequestsPerSecond b now) ∧
    ((tryAcquire config.BurstSize config.RequestsPerSecond b now).1 = true →
      (tryAcquire config.BurstSize config.RequestsPerSecond b now).2 =
        ⟨refill config.BurstSize config.RequestsPerSecond b now - 1, now⟩) ∧
    ((tryAcquire config.BurstSize config.RequestsPerSecond b now).1 = false →
      (tryAcquire config.BurstSize config.RequestsPerSecond b now).2 =
        ⟨refill config.BurstSize config.RequestsPerSecond b now, now⟩ ∧
      refill config.BurstSize config.RequestsPerSecond b now < 1) ∧
    stepRun config reg ip now (config.BurstSize.toNat + 1) =
      List.replicate config.BurstSize.toNat true ++ [false] := by
  refine ⟨rfl, ?_, ?_, ?_, stepRun_burst config reg ip now hC hnew⟩ <;>
    by_cases h : 1 ≤ refill config.BurstSize config.RequestsPerSecond b now
  · simp [tryAcquire, h]
  · simp [tryAcquire, h]
  · intro _
    simp [tryAcquire, h]
  · intro htrue
    rw [tryAcquire, if_neg h] at htrue
    simp at htrue
  · intro hfalse
    rw [tryAcquire, if_pos h] at hfalse
    simp at hfalse
  · intro _
    rw [tryAcquire, if_neg h]
    exact ⟨rfl, lt_of_not_le h⟩

/-- witness for C2: capacity 3, rate 1/s, a new key: three same-instant
admissions, then a denial. -/
theorem C2_token_bucket_admission_witness :
    stepRun ⟨1, 3⟩ emptyRegistry "10.0.0.1" 0 ((3 : Int).toNat + 1) =
      List.replicate (3 : Int).toNat true ++ [false] :=
  (C2_token_bucket_admission ⟨1, 3⟩ emptyRegistry "10.0.0.1" ⟨2, 0⟩ 0
    (by decide) (by decide) rfl).2.2.2.2

/-- C7: per-key isolation (requests for other keys leave the registry
slot of a key, and with it its next admission outcome, unchanged) and policy
isolation (an auth-policy request never changes the default registry and a
default-policy request never changes the auth registry, because each
middleware owns its own map). -/
theorem C7_per_key_and_policy_isolation (cfg cfgD cfgA : RateLimiterConfig)
    (reg : Registry) (reqs : List (String × ℚ)) (ipB ipX : String)
    (now t : ℚ) (s : TwoPolicyState) (hB : ∀ p ∈ reqs, p.1 ≠ ipB) :
    runRequests cfg reg reqs ipB = reg ipB ∧
    (rateLimitStep cfg (runRequests cfg reg reqs) ipB now).allowed =
      (rateLimitStep cfg reg ipB now).allowed ∧
    ((authRequest cfgA s ipX t).2).defaultReg = s.defaultReg ∧
    ((defaultRequest cfgD s ipX t).2).authReg = s.authReg :=
  ⟨runRequests_frame cfg ipB reqs reg hB,
    rateLimitStep_allowed_congr cfg ipB now
      (runRequests_frame cfg ipB reqs reg hB),
    rfl, rfl⟩

/-- witness for C7: client A exhausts nothing of the state of client B. -/
theorem C7_per_key_and_policy_isolation_witness :
    runRequests AuthRateLimiterConfig emptyRegistry [("10.0.0.1", 0)]
        "10.0.0.2" = emptyRegistry "10.0.0.2" ∧
    (rateLimitStep AuthRateLimiterConfig
        (runRequests AuthRateLimiterConfig emptyRegistry [("10.0.0.1", 0)])
        "10.0.0.2" 0).allowed =
      (rateLimitStep AuthRateLimiterConfig emptyRegistry "10.0.0.2" 0).allowed ∧
    ((authRequest AuthRateLimiterConfig ⟨emptyRegistry, emptyRegistry⟩
        "10.0.0.1" 0).2).defaultReg = emptyRegistry ∧
    ((defaultRequest DefaultRateLimiterConfig ⟨emptyRegistry, emptyRegistry⟩
        "10.0.0.1" 0).2).authReg = emptyRegistry :=
  C7_per_key_and_policy_isolation AuthRateLimiterConfig
    DefaultRateLimiterConfig AuthRateLimiterConfig emptyRegistry
    [("10.0.0.1", 0)] "10.0.0.2" "10.0.0.1" 0 0
    ⟨emptyRegistry, emptyRegistry⟩ (by decide)

/-- C8: one sweep removes exactly the entries whose lastSeen is more than
one hour before now and keeps every other entry unchanged, and a key the
sweep evicted gets a fresh full bucket on its next requests: BurstSize
same-instant admissions then a denial. -/
theorem C8_sweep_evicts_idle_entries (reg : Registry) (now t : ℚ)
    (k : String) (e : RateLimiterEntry) (config : RateLimiterConfig)
    (hC : 1 ≤ config.BurstSize) :
    (cleanupExpiredLimiters reg now k = none ↔
      reg k = none ∨ ∃ e2, reg k = some e2 ∧ e2.lastSeen < now - 3600) ∧
    (reg k = some e → ¬ e.lastSeen < now - 3600 →
      cleanupExpiredLimiters reg now k = some e) ∧
    (cleanupExpiredLimiters reg now k = none →
      stepRun config (cleanupExpiredLimiters reg now) k t
          (config.BurstSize.toNat + 1) =
        List.replicate config.BurstSize.toNat true ++ [false]) := by
  refine ⟨?_, ?_, fun h => stepRun_burst config _ k t hC h⟩
  · cases h : reg k with
    | none => simp [cleanupExpiredLimiters, h]
    | some e2 =>
      by_cases hc : e2.lastSeen < now - 3600 <;>
        simp [cleanupExpiredLimiters, h, hc]
  · intro hsome hnc
    unfold cleanupExpiredLimiters
    rw [hsome]
    simp [hnc]

/-- the registry of the C8 witness: one entry, idle since one second before
the epoch. -/
def reg0 : Registry :=
  fun k => if k = "10.9.9.9" then some ⟨⟨5, -1⟩, -1⟩ else none

/-- witness for C8: at time 3600 the sweep evicts the idle entry and the
key then gets the full auth burst of 5 again. -/
theorem C8_sweep_evicts_idle_entries_witness :
    stepRun AuthRateLimiterConfig (cleanupExpiredLimiters reg0 3600)
        "10.9.9.9" 3600 ((5 : Int).toNat + 1) =
      List.replicate (5 : Int).toNat true ++ [false] :=
  (C8_sweep_evicts_idle_entries reg0 3600 3600 "10.9.9.9" ⟨⟨5, -1⟩, -1⟩
    AuthRateLimiterConfig (by decide)).2.2
    (by simp [cleanupExpiredLimiters, reg0])

/-- C10: an admitted request carries X-RateLimit-Remaining = BurstSize - 1
whatever the registry and bucket state are, and no Reset header; a denied
request carries Remaining = 0 and Reset = Unix(now) + 1 second. -/
theorem C10_rate_limit_headers (config : RateLimiterConfig) (reg : Registry)
    (ip : String) (now : ℚ) :
    ((rateLimitStep config reg ip now).allowed = true →
      (rateLimitStep config reg ip now).headers =
        ⟨config.RequestsPerSecond, config.BurstSize - 1, none⟩) ∧
    ((rateLimitStep config reg ip now).allowed = false →
      (rateLimitStep config reg ip now).headers =
        ⟨config.RequestsPerSecond, 0, some (⌊now⌋ + 1)⟩) := by
  constructor <;> intro h <;> rw [rateLimitStep_headers, h] <;>
    simp [Int.floor_add_one]

/-- witness for C10: the first request of a fresh key is admitted and its
Remaining header is the constant 19 = BurstSize - 1. -/
theorem C10_rate_limit_headers_witness :
    (rateLimitStep DefaultRateLimiterConfig emptyRegistry "10.0.0.1" 0).headers =
      ⟨10, 19, none⟩ :=
  (C10_rate_limit_headers DefaultRateLimiterConfig emptyRegistry
    "10.0.0.1" 0).1
    (by simp [rateLimitStep_allowed, lookupEntry, emptyRegistry, tryAcquire,
      refill, freshBucket, DefaultRateLimiterConfig])

end Blog
